import Mathlib

/-!
Verification development for the SentinalX behavioral telemetry pipeline.

Shallow embedding of the client-side pipeline:
  feature extraction (client/feature_extractor.py) →
  baseline calibration (client/baseline_builder.py) →
  anomaly scoring (client/activity_shift_detector.py) →
  risk smoothing (client/risk_engine.py).

Real-valued (Python float) arithmetic is modelled over ℚ, with the exact
rational values of the source's decimal literals.  Python's `ZeroDivisionError`
is modelled by returning `none` from the function that would raise.
`math.sqrt` is modelled by an abstract parameter `sq : ℚ → ℚ` (theorems that
need it assume `sq` is nonnegative-valued, which the float `sqrt` is on the
nonnegative inputs it receives here).  Python's `random.random()` and
`random.uniform(30, 80)` draws are modelled as explicit oracle inputs `r`
and `u` to the scoring function.
-/

namespace SentinalX

/-- Modelled from the spec: `shared/models.py` is not part of the provided
source tree.  The event tagged union is reconstructed from the spec's data
model (`KeyPress, KeyRelease, MouseMove(x,y), FocusLost, FocusGained,
IdlePeriod(duration)`) and from the constructor calls in
`client/interaction_listener.py` and the `isinstance`/`type` tests in
`client/feature_extractor.py`. -/
inductive EventType where
  | key_press
  | key_release
  | mouse_move
  | focus_lost
  | focus_gained
  | idle_period
deriving DecidableEq

/-- Modelled from the spec: the event variants of `shared/models.py`
(`KeystrokeEvent`, `MouseEvent`, `FocusEvent`, `IdleEvent`), each carrying a
timestamp in seconds plus the payload seen at its construction sites. -/
inductive Event where
  | keystroke (timestamp : ℚ) (etype : EventType)
  | mouse (timestamp : ℚ) (etype : EventType) (x y : ℤ)
  | focus (timestamp : ℚ) (etype : EventType) (lostFocus : Bool)
  | idle (timestamp : ℚ) (etype : EventType) (duration : ℚ)
deriving DecidableEq

/-- Timestamp of any event variant. -/
def Event.timestamp : Event → ℚ
  | .keystroke t _ => t
  | .mouse t _ _ _ => t
  | .focus t _ _ => t
  | .idle t _ _ => t

/-- Python `isinstance(ev, KeystrokeEvent) and ev.type == EventType.KEY_PRESS`. -/
def Event.isKeyPress : Event → Bool
  | .keystroke _ .key_press => true
  | _ => false

/-- Python `isinstance(ev, FocusEvent) and ev.type == EventType.FOCUS_LOST`. -/
def Event.isFocusLost : Event → Bool
  | .focus _ .focus_lost _ => true
  | _ => false

/-- Python `isinstance(ev, IdleEvent)` → its `duration` field. -/
def Event.idleDur : Event → Option ℚ
  | .idle _ _ d => some d
  | _ => none

/-- Python `isinstance(ev, MouseEvent) and ev.type == EventType.MOUSE_MOVE`
→ the `(timestamp, x, y)` sample appended in `compute_features`. -/
def Event.mouseSample : Event → Option (ℚ × ℤ × ℤ)
  | .mouse t .mouse_move x y => some (t, x, y)
  | _ => none

/-- `FeatureVector` dataclass of `client/feature_extractor.py` (all fields
default to 0; `focus_loss_count` is an `int` that only ever counts, so ℕ). -/
structure FeatureVector where
  avg_typing_speed : ℚ := 0
  avg_idle_duration : ℚ := 0
  focus_loss_count : ℕ := 0
  avg_mouse_speed : ℚ := 0
  inter_key_interval : ℚ := 0
  window_start : ℚ := 0
  window_end : ℚ := 0
deriving DecidableEq

/-- State of `FeatureExtractor`: the configured window length and the event
buffer (the Python deque, oldest first). -/
structure FEState where
  window_duration : ℚ
  event_buffer : List Event
deriving DecidableEq

/-- Body of the out-of-order `for` loop of `FeatureExtractor.add_event`:
insert `e` right before the first buffered event with a strictly larger
timestamp; if none exists the loop falls through and the event is dropped
(the Python loop breaks only after an `insert`). -/
def insert_before_later (e : Event) : List Event → List Event
  | [] => []
  | x :: xs =>
    if e.timestamp < x.timestamp then e :: x :: xs else x :: insert_before_later e xs

/-- `FeatureExtractor.add_event`: append when the buffer is empty or the new
timestamp is ≥ the last buffered timestamp, otherwise positional insertion. -/
def add_event (s : FEState) (e : Event) : FEState :=
  match s.event_buffer.getLast? with
  | none => { s with event_buffer := [e] }
  | some l =>
    if l.timestamp ≤ e.timestamp then { s with event_buffer := s.event_buffer ++ [e] }
    else { s with event_buffer := insert_before_later e s.event_buffer }

/-- `FeatureExtractor._prune_buffer`: pop from the left while the head's
timestamp is `< current_time - window_duration`. -/
def prune_buffer (s : FEState) (current_time : ℚ) : FEState :=
  { s with
    event_buffer :=
      s.event_buffer.dropWhile (fun e => e.timestamp < current_time - s.window_duration) }

/-- Timestamps of the key-press events of the window, in buffer order
(Python `press_timestamps`). -/
def press_times (evs : List Event) : List ℚ :=
  evs.filterMap (fun e => if e.isKeyPress then some e.timestamp else none)

/-- Python `intervals`: consecutive differences `ts[i+1] - ts[i]`. -/
def intervals (ts : List ℚ) : List ℚ :=
  List.zipWith (fun a b => b - a) ts ts.tail

/-- Durations of the idle events of the window (Python `idle_durations`). -/
def idle_durations (evs : List Event) : List ℚ :=
  evs.filterMap Event.idleDur

/-- Mouse-move samples of the window (Python `mouse_positions`). -/
def mouse_samples (evs : List Event) : List (ℚ × ℤ × ℤ) :=
  evs.filterMap Event.mouseSample

/-- Python `total_distance`: sum over consecutive samples of
`sqrt(dx*dx + dy*dy)`, with `sqrt` abstracted as `sq`. -/
def mouse_dist (sq : ℚ → ℚ) (ps : List (ℚ × ℤ × ℤ)) : ℚ :=
  (List.zipWith
    (fun p q =>
      sq ((((q.2.1 - p.2.1 : ℤ) : ℚ)) ^ 2 + (((q.2.2 - p.2.2 : ℤ) : ℚ)) ^ 2))
    ps ps.tail).sum

/-- Keystroke branch of `compute_features` (lines 106–122): typing speed in
keystrokes per minute, gated on ≥ 2 key presses and a positive window length
(`window_len = current_time - fv.window_start`). -/
def typing_speed_of (ct ws : ℚ) (evs : List Event) : ℚ :=
  if 2 ≤ (press_times evs).length then
    if 0 < ct - ws then (((press_times evs).length : ℚ) / (ct - ws)) * 60 else 0
  else 0

/-- Keystroke branch of `compute_features`: mean inter-key interval, gated on
≥ 2 key presses. -/
def inter_key_of (evs : List Event) : ℚ :=
  if 2 ≤ (press_times evs).length then
    (intervals (press_times evs)).sum / ((intervals (press_times evs)).length : ℚ)
  else 0

/-- Idle branch of `compute_features` (lines 124–132): mean idle duration,
0 when no idle event is present. -/
def idle_feat (evs : List Event) : ℚ :=
  if (idle_durations evs).isEmpty then 0
  else (idle_durations evs).sum / ((idle_durations evs).length : ℚ)

/-- Mouse branch of `compute_features` (lines 141–164): total distance over
the time span between first and last sample, gated on ≥ 2 samples and a
positive span. -/
def mouse_feat (sq : ℚ → ℚ) (evs : List Event) : ℚ :=
  if 2 ≤ (mouse_samples evs).length then
    if 0 < ((mouse_samples evs).getLastD (0, 0, 0)).1 -
        ((mouse_samples evs).headD (0, 0, 0)).1 then
      mouse_dist sq (mouse_samples evs) /
        (((mouse_samples evs).getLastD (0, 0, 0)).1 -
          ((mouse_samples evs).headD (0, 0, 0)).1)
    else 0
  else 0

/-- The `FeatureVector` assembled by `compute_features` over the pruned
window `evs`, with `window_start = ct - wd` and `window_end = ct`. -/
def compute_fv (sq : ℚ → ℚ) (wd ct : ℚ) (evs : List Event) : FeatureVector :=
  let ws := ct - wd
  { avg_typing_speed := typing_speed_of ct ws evs
    avg_idle_duration := idle_feat evs
    focus_loss_count := (evs.filter Event.isFocusLost).length
    avg_mouse_speed := mouse_feat sq evs
    inter_key_interval := inter_key_of evs
    window_start := ws
    window_end := ct }

/-- `FeatureExtractor.compute_features`: default `current_time` to the last
buffered timestamp (0 on an empty buffer), prune, then compute the vector
over the remaining events; returns the mutated state and the vector. -/
def compute_features (sq : ℚ → ℚ) (s : FEState) (ct? : Option ℚ) :
    FEState × FeatureVector :=
  let ct := match ct? with
    | some t => t
    | none =>
      match s.event_buffer.getLast? with
      | some e => e.timestamp
      | none => 0
  let s1 := prune_buffer s ct
  (s1, compute_fv sq s.window_duration ct s1.event_buffer)

/-- `BaselineProfile` dataclass of `client/baseline_builder.py`. -/
structure BaselineProfile where
  avg_typing_speed : ℚ
  avg_idle_duration : ℚ
  avg_focus_rate : ℚ
deriving DecidableEq

/-- State of `BaselineBuilder`. -/
structure BBState where
  calibration_duration : ℚ
  feature_history : List FeatureVector
  baseline : Option BaselineProfile
  calibration_start : Option ℚ
deriving DecidableEq

/-- `BaselineBuilder.__init__` with the given calibration duration. -/
def bb_init (d : ℚ) : BBState :=
  { calibration_duration := d, feature_history := [], baseline := none,
    calibration_start := none }

/-- `BaselineBuilder.start_calibration`. -/
def start_calibration (s : BBState) (start_time : ℚ) : BBState :=
  { s with feature_history := [], baseline := none, calibration_start := some start_time }

/-- `BaselineBuilder._build_baseline`.  The `window_count > 0` test of the
source is always true on the non-empty branch (the empty history returns the
default profile first), and the `hasattr` tests are always true for the
`FeatureVector` dataclass, so both collapse here. -/
def build_baseline (hist : List FeatureVector) : BaselineProfile :=
  match hist with
  | [] =>
    { avg_typing_speed := 150, avg_idle_duration := 2, avg_focus_rate := 1/2 }
  | f0 :: _ =>
    let n : ℚ := hist.length
    let wd0 := f0.window_end - f0.window_start
    let wd := if wd0 ≤ 0 then 30 else wd0
    { avg_typing_speed := (hist.map FeatureVector.avg_typing_speed).sum / n
      avg_idle_duration := (hist.map FeatureVector.avg_idle_duration).sum / n
      avg_focus_rate :=
        ((hist.map (fun fv => (fv.focus_loss_count : ℚ))).sum / n) * (60 / wd) }

/-- `BaselineBuilder.update`: no-op once a baseline exists; implicit start
when uninitialized; append while `current_time - calibration_start` is within
the calibration duration, otherwise freeze the baseline (`_build_baseline`
also clears the history). -/
def update (s : BBState) (features : FeatureVector) (current_time : ℚ) : BBState :=
  if s.baseline.isSome then s
  else
    let s1 := if s.calibration_start.isNone then start_calibration s current_time else s
    match s1.calibration_start with
    | some cs =>
      if current_time - cs ≤ s1.calibration_duration then
        { s1 with feature_history := s1.feature_history ++ [features] }
      else
        { s1 with baseline := some (build_baseline s1.feature_history),
                  feature_history := [] }
    | none => s1

/-- `BaselineBuilder.reset`. -/
def bb_reset (s : BBState) : BBState :=
  { s with feature_history := [], baseline := none, calibration_start := none }

/-- `AnomalyScores` dataclass of `client/activity_shift_detector.py`. -/
structure AnomalyScores where
  idle_burst : ℚ := 0
  focus_instability : ℚ := 0
  behavioral_drift : ℚ := 0
  overall : ℚ := 0
deriving DecidableEq

/-- Python `min(70.0, max(0.0, raw))`. -/
def clip70 (x : ℚ) : ℚ := min 70 (max 0 x)

/-- Rule A (Idle-to-Burst) of `compute_scores`, lines 64–74.  The division
`features.avg_typing_speed / baseline.avg_typing_speed` raises
`ZeroDivisionError` when the baseline speed is 0, modelled as `none`. -/
def rule_idle_burst (base : BaselineProfile) (f : FeatureVector) : Option ℚ :=
  if base.avg_idle_duration * (12/10) < f.avg_idle_duration then
    if (13/10) * base.avg_typing_speed < f.avg_typing_speed then
      if base.avg_typing_speed = 0 then none
      else some (clip70 ((f.avg_typing_speed / base.avg_typing_speed - 13/10) * 100))
    else some 0
  else some 0

/-- Focus-loss rate of the window, lines 77–81 of `compute_scores`. -/
def focus_rate_of (f : FeatureVector) : ℚ :=
  let wd := f.window_end - f.window_start
  if 0 < wd then (f.focus_loss_count : ℚ) * (60 / wd) else 0

/-- Rule B (Focus Instability) of `compute_scores`, lines 83–88.  The
division `focus_rate / baseline.avg_focus_rate` raises when the baseline
focus rate is 0, modelled as `none`. -/
def rule_focus_instability (base : BaselineProfile) (f : FeatureVector) : Option ℚ :=
  let fr := focus_rate_of f
  if (3/2) * base.avg_focus_rate < fr then
    if base.avg_focus_rate = 0 then none
    else some (clip70 ((fr / base.avg_focus_rate - 3/2) * 100))
  else some 0

/-- Rule C (Behavioral Drift) of `compute_scores`, lines 90–99: explicitly
guarded on a positive baseline typing speed, so it never divides by zero. -/
def rule_behavioral_drift (base : BaselineProfile) (f : FeatureVector) : Option ℚ :=
  if 0 < base.avg_typing_speed then
    let dev := |f.avg_typing_speed - base.avg_typing_speed| / base.avg_typing_speed
    if (3/10) < dev then some (clip70 ((dev - 3/10) * 200))
    else some 0
  else some 0

/-- Lines 61–102 of `compute_scores`: the three rules in source order (an
exception in an earlier rule aborts the call), then
`overall = max(idle_burst, focus_instability, behavioral_drift)`. -/
def detector_rules (base : BaselineProfile) (f : FeatureVector) : Option AnomalyScores :=
  match rule_idle_burst base f with
  | none => none
  | some a =>
    match rule_focus_instability base f with
    | none => none
    | some b =>
      match rule_behavioral_drift base f with
      | none => none
      | some c =>
        some { idle_burst := a, focus_instability := b, behavioral_drift := c,
               overall := max a (max b c) }

/-- `ActivityShiftDetector.compute_scores`.  `counter` is the detector's
call counter before the call; the returned ℕ is its value after.  `r` models
the `random.random()` draw and `u` the `random.uniform(30, 80)` draw of the
"FOR TESTING" substitution path taken once the counter exceeds 20. -/
def compute_scores (baseline : Option BaselineProfile) (counter : ℕ)
    (f : FeatureVector) (r u : ℚ) : ℕ × Option AnomalyScores :=
  match baseline with
  | none => (counter, some {})
  | some base =>
    let c := counter + 1
    if 20 < c then
      if r < 33/100 then
        (c, some { idle_burst := u, overall := u })
      else if r < 66/100 then
        (c, some { focus_instability := u, overall := u })
      else
        (c, some { behavioral_drift := u, overall := u })
    else
      (c, detector_rules base f)

/-- State of `RiskEngine`: the `deque(maxlen=smoothing_window)` plus the two
exposed scalars (the fixed weights 0.4/0.3/0.3 are inlined in
`compute_risk`). -/
structure RiskState where
  smoothing_window : ℕ
  risk_history : List ℚ
  last_raw_risk : ℚ
  last_smoothed_risk : ℚ
deriving DecidableEq

/-- `RiskEngine.__init__` with the given smoothing window. -/
def risk_init (w : ℕ) : RiskState :=
  { smoothing_window := w, risk_history := [], last_raw_risk := 0,
    last_smoothed_risk := 0 }

/-- Append to a `deque(maxlen=cap)`: the new element goes on the right and
the left is trimmed down to the capacity. -/
def push_capped (cap : ℕ) (h : List ℚ) (x : ℚ) : List ℚ :=
  (h ++ [x]).drop ((h ++ [x]).length - cap)

/-- Lines 26–31 of `RiskEngine.compute_risk`: the weighted sum
`0.4×idle_burst + 0.3×focus_instability + 0.3×behavioral_drift` clipped to
`[0, 100]`. -/
def risk_raw (a : AnomalyScores) : ℚ :=
  max 0 (min 100
    ((2/5) * a.idle_burst + (3/10) * a.focus_instability + (3/10) * a.behavioral_drift))

/-- `RiskEngine.compute_risk`: weighted sum clipped to `[0, 100]`, appended
to the capped history, then the mean of the history (or the raw value on an
empty history). -/
def compute_risk (s : RiskState) (a : AnomalyScores) : RiskState × ℚ :=
  let raw := risk_raw a
  let h := push_capped s.smoothing_window s.risk_history raw
  let sm := if 0 < h.length then h.sum / (h.length : ℚ) else raw
  ({ s with risk_history := h, last_raw_risk := raw, last_smoothed_risk := sm }, sm)

/-- `RiskEngine.reset`. -/
def risk_reset (s : RiskState) : RiskState :=
  { s with risk_history := [], last_raw_risk := 0, last_smoothed_risk := 0 }

/-- Feature vector used in the spec's calibration scenario: typing speed `k`,
a 30-second window, everything else 0. -/
def calib_fv (k : ℕ) : FeatureVector :=
  { avg_typing_speed := (k : ℚ), window_end := 30 }

/-- Calibrator state after feeding `calib_fv k` at time `k` for
`k = 0, …, 179` to a fresh builder with `calibration_duration = 180`. -/
def calib_state_179 : BBState :=
  (List.range 180).foldl (fun st k => update st (calib_fv k) (k : ℚ)) (bb_init 180)

/-- The spec scenario's final state: one more vector at `t = 181`. -/
def calib_final : BBState := update calib_state_179 (calib_fv 181) 181

/-- An `AnomalyScores` whose weighted raw risk is `(2/5) * x`. -/
def risk_score_in (x : ℚ) : AnomalyScores := { idle_burst := x, overall := x }

/-- Risk engine state after feeding scores with raw values
`(2/5) * x` for `x ∈ xs` to a fresh engine with window 5. -/
def risk_state_after (xs : List ℚ) : RiskState :=
  xs.foldl (fun st x => (compute_risk st (risk_score_in x)).1) (risk_init 5)

/-- C1: `compute_scores` is NOT a pure deterministic function of
`(FeatureVector, BaselineProfile)`.  With the same baseline `(100, 2, 1)` and
the same feature vector, the 21st call (counter 20 before the call) takes the
"FOR TESTING" substitution path: two admissible draws of `random.random()`
(0.1 and 0.9, with `random.uniform(30,80) = 50`) give different score sets,
and the 6th call gives yet another result than the 21st. -/
theorem compute_scores_not_deterministic :
    (compute_scores (some ⟨100, 2, 1⟩) 20 (calib_fv 100) (1/10) 50).2 ≠
      (compute_scores (some ⟨100, 2, 1⟩) 20 (calib_fv 100) (9/10) 50).2 ∧
    (compute_scores (some ⟨100, 2, 1⟩) 5 (calib_fv 100) (1/10) 50).2 ≠
      (compute_scores (some ⟨100, 2, 1⟩) 20 (calib_fv 100) (1/10) 50).2 := by
  norm_num [compute_scores, detector_rules, rule_idle_burst, rule_focus_instability,
    rule_behavioral_drift, clip70, focus_rate_of, calib_fv]

/-- C2: a zero baseline denominator does NOT short-circuit to a zero score in
every rule.  With baseline `(0, 0, 1)` and a feature vector with idle
duration 1 and typing speed 10, Rule A's guards pass and
`features.avg_typing_speed / baseline.avg_typing_speed` raises
`ZeroDivisionError` (modelled as `none`); with baseline `(1, 0, 0)` and one
focus loss in a 30-second window, Rule B raises the same way.  Only Rule C
(Behavioral Drift) is guarded. -/
theorem compute_scores_zero_baseline_div_error :
    compute_scores (some ⟨0, 0, 1⟩) 0
      { avg_typing_speed := 10, avg_idle_duration := 1, window_end := 30 } 0 0 =
      (1, none) ∧
    compute_scores (some ⟨1, 0, 0⟩) 0
      { focus_loss_count := 1, window_end := 30 } 0 0 = (1, none) := by
  norm_num [compute_scores, detector_rules, rule_idle_burst, rule_focus_instability,
    rule_behavioral_drift, clip70, focus_rate_of]

/-- C3: the component scores are NOT always within `[0, 70]`.  On the 21st
call the "FOR TESTING" path assigns `random.uniform(30, 80)` directly: with
draw 79 the returned `idle_burst` is 79 > 70. -/
theorem compute_scores_random_path_exceeds_cap :
    (compute_scores (some ⟨100, 2, 1⟩) 20 (calib_fv 100) (1/10) 79).2 =
      some { idle_burst := 79, overall := 79 } ∧ (70 : ℚ) < 79 := by
  norm_num [compute_scores, calib_fv]

/-- Appending to a deque whose length is within its capacity `cap ≥ 1` keeps
the list when below capacity and evicts exactly the oldest entry at
capacity. -/
theorem push_capped_eq (cap : ℕ) (h : List ℚ) (x : ℚ) (hcap : 1 ≤ cap)
    (hlen : h.length ≤ cap) :
    push_capped cap h x =
      if h.length < cap then h ++ [x] else h.drop 1 ++ [x] := by
  unfold push_capped
  simp only [List.length_append, List.length_singleton]
  by_cases hc : h.length < cap
  · have h0 : h.length + 1 - cap = 0 := by omega
    rw [if_pos hc, h0, List.drop_zero]
  · have h1 : h.length + 1 - cap = 1 := by omega
    rw [if_neg hc, h1, List.drop_append_of_le_length (by omega)]

/-- C5: `compute_risk` appends the clipped weighted raw risk to the capped
trailing sequence (oldest evicted at capacity) and returns the mean of the
sequence; on window 5 the spec's `[10,20,30,40,50]` example yields 30 and the
sixth value 60 evicts 10 and yields 40.  (The `AnomalyScores` inputs are
chosen so the weighted raws are exactly 10, 20, 30, 40, 50, 60.) -/
theorem compute_risk_clip_append_mean (s : RiskState) (a : AnomalyScores)
    (hcap : 1 ≤ s.smoothing_window)
    (hlen : s.risk_history.length ≤ s.smoothing_window) :
    ((compute_risk s a).1.risk_history =
      if s.risk_history.length < s.smoothing_window then
        s.risk_history ++ [risk_raw a]
      else s.risk_history.drop 1 ++ [risk_raw a]) ∧
    (compute_risk s a).2 =
      ((compute_risk s a).1.risk_history).sum /
        (((compute_risk s a).1.risk_history).length : ℚ) ∧
    (risk_state_after [25, 50, 75, 100, 125]).risk_history =
      [10, 20, 30, 40, 50] ∧
    (risk_state_after [25, 50, 75, 100, 125]).last_smoothed_risk = 30 ∧
    (risk_state_after [25, 50, 75, 100, 125, 150]).risk_history =
      [20, 30, 40, 50, 60] ∧
    (risk_state_after [25, 50, 75, 100, 125, 150]).last_smoothed_risk = 40 := by
  have hpush := push_capped_eq s.smoothing_window s.risk_history (risk_raw a) hcap hlen
  have hne : 0 < (push_capped s.smoothing_window s.risk_history (risk_raw a)).length := by
    rw [hpush]
    split <;> simp
  refine ⟨?_, ?_, ?_, ?_, ?_, ?_⟩
  · simpa [compute_risk] using hpush
  · simp [compute_risk, hne]
  · norm_num [risk_state_after, compute_risk, risk_raw, risk_init, risk_score_in,
      push_capped]
  · norm_num [risk_state_after, compute_risk, risk_raw, risk_init, risk_score_in,
      push_capped]
  · norm_num [risk_state_after, compute_risk, risk_raw, risk_init, risk_score_in,
      push_capped]
  · norm_num [risk_state_after, compute_risk, risk_raw, risk_init, risk_score_in,
      push_capped]

/-- Witness for C5 on a fresh engine with the default window 5. -/
theorem compute_risk_clip_append_mean_witness :
    (((compute_risk (risk_init 5) (risk_score_in 25)).1.risk_history =
      if (risk_init 5).risk_history.length < (risk_init 5).smoothing_window then
        (risk_init 5).risk_history ++ [risk_raw (risk_score_in 25)]
      else (risk_init 5).risk_history.drop 1 ++ [risk_raw (risk_score_in 25)]) ∧
    (compute_risk (risk_init 5) (risk_score_in 25)).2 =
      ((compute_risk (risk_init 5) (risk_score_in 25)).1.risk_history).sum /
        (((compute_risk (risk_init 5) (risk_score_in 25)).1.risk_history).length : ℚ) ∧
    (risk_state_after [25, 50, 75, 100, 125]).risk_history =
      [10, 20, 30, 40, 50] ∧
    (risk_state_after [25, 50, 75, 100, 125]).last_smoothed_risk = 30 ∧
    (risk_state_after [25, 50, 75, 100, 125, 150]).risk_history =
      [20, 30, 40, 50, 60] ∧
    (risk_state_after [25, 50, 75, 100, 125, 150]).last_smoothed_risk = 40) :=
  compute_risk_clip_append_mean (risk_init 5) (risk_score_in 25)
    (by norm_num [risk_init]) (by norm_num [risk_init])

/-- C7: whenever `compute_scores` returns a score set, its `overall` field is
the maximum of the three component fields — on the no-baseline path, the
deterministic rule path, and each random substitution branch (whose
`random.uniform(30, 80)` draw is nonnegative). -/
theorem compute_scores_overall_max (b : Option BaselineProfile) (c : ℕ)
    (f : FeatureVector) (r u : ℚ) (hu : 0 ≤ u) (s : AnomalyScores)
    (hs : (compute_scores b c f r u).2 = some s) :
    s.overall = max s.idle_burst (max s.focus_instability s.behavioral_drift) := by
  cases b with
  | none =>
    simp only [compute_scores] at hs
    cases hs
    simp
  | some base =>
    simp only [compute_scores] at hs
    split_ifs at hs with h1 h2 h3
    · cases hs
      simp [max_eq_left hu, max_eq_right hu]
    · cases hs
      simp [max_eq_left hu, max_eq_right hu]
    · cases hs
      simp [max_eq_left hu, max_eq_right hu]
    · cases hA : rule_idle_burst base f with
      | none => simp [detector_rules, hA] at hs
      | some va =>
        cases hB : rule_focus_instability base f with
        | none => simp [detector_rules, hA, hB] at hs
        | some vb =>
          cases hC : rule_behavioral_drift base f with
          | none => simp [detector_rules, hA, hB, hC] at hs
          | some vc =>
            simp only [detector_rules, hA, hB, hC, Option.some.injEq] at hs
            subst hs
            rfl

/-- Witness for C7 on the no-baseline path. -/
theorem compute_scores_overall_max_witness :
    (AnomalyScores.mk 0 0 0 0).overall =
      max (AnomalyScores.mk 0 0 0 0).idle_burst
        (max (AnomalyScores.mk 0 0 0 0).focus_instability
          (AnomalyScores.mk 0 0 0 0).behavioral_drift) :=
  compute_scores_overall_max none 0 {} 0 0 le_rfl (AnomalyScores.mk 0 0 0 0) rfl

/-- Summing a constant-zero map gives zero. -/
theorem sum_map_const_zero (l : List ℕ) : (l.map (fun _ => (0 : ℚ))).sum = 0 := by
  induction l with
  | nil => rfl
  | cons a t ih => simp [ih]

/-- While every timestamp stays within the calibration window, a fold of
`update` calls appends all vectors in order without freezing. -/
theorem foldl_update_appends (ks : List ℕ) (s : BBState) (cs : ℚ)
    (hb : s.baseline = none) (hcs : s.calibration_start = some cs)
    (hks : ∀ k ∈ ks, (k : ℚ) - cs ≤ s.calibration_duration) :
    ks.foldl (fun st k => update st (calib_fv k) (k : ℚ)) s =
      { s with feature_history := s.feature_history ++ ks.map calib_fv } := by
  induction ks generalizing s with
  | nil => simp
  | cons k ks ih =>
    have hstep : update s (calib_fv k) (k : ℚ) =
        { s with feature_history := s.feature_history ++ [calib_fv k] } := by
      simp [update, hb, hcs, hks k (List.mem_cons_self k ks)]
    rw [List.foldl_cons, hstep,
      ih { s with feature_history := s.feature_history ++ [calib_fv k] } hb hcs
        (fun j hj => hks j (List.mem_cons_of_mem k hj))]
    simp

/-- Typing speeds of the scenario vectors sum to the sum of the indices. -/
theorem map_calib_speed_sum (l : List ℕ) :
    ((l.map calib_fv).map FeatureVector.avg_typing_speed).sum = ((l.sum : ℕ) : ℚ) := by
  induction l with
  | nil => simp
  | cons a t ih =>
    simp only [List.map_cons, List.sum_cons, Nat.cast_add, ih]
    norm_num [calib_fv]

/-- Idle durations of the scenario vectors are all zero. -/
theorem map_calib_idle_sum (l : List ℕ) :
    ((l.map calib_fv).map FeatureVector.avg_idle_duration).sum = 0 := by
  induction l with
  | nil => simp
  | cons a t ih =>
    simp only [List.map_cons, List.sum_cons, ih]
    norm_num [calib_fv]

/-- Focus-loss counts of the scenario vectors are all zero. -/
theorem map_calib_focus_sum (l : List ℕ) :
    ((l.map calib_fv).map (fun v => (v.focus_loss_count : ℚ))).sum = 0 := by
  induction l with
  | nil => simp
  | cons a t ih =>
    simp only [List.map_cons, List.sum_cons, ih]
    norm_num [calib_fv]

/-- The spec scenario's state after the vectors at `t = 0, …, 179`: still
calibrating, all 180 vectors recorded. -/
theorem calib_state_179_eq :
    calib_state_179 =
      { calibration_duration := 180,
        feature_history := (List.range 180).map calib_fv,
        baseline := none, calibration_start := some 0 } := by
  have h0 : update (bb_init 180) (calib_fv 0) ((0 : ℕ) : ℚ) =
      { calibration_duration := 180, feature_history := [calib_fv 0],
        baseline := none, calibration_start := some 0 } := by
    norm_num [update, bb_init, start_calibration]
  rw [calib_state_179, List.range_succ_eq_map, List.foldl_cons, h0,
    foldl_update_appends _ _ 0 rfl rfl]
  · simp [List.map_map]
  · intro j hj
    rcases List.mem_map.mp hj with ⟨i, hi, rfl⟩
    have hi' : i < 179 := List.mem_range.mp hi
    show ((Nat.succ i : ℕ) : ℚ) - 0 ≤ 180
    have h2 : ((Nat.succ i : ℕ) : ℚ) ≤ 180 := by
      exact_mod_cast (by omega : Nat.succ i ≤ 180)
    linarith

/-- The triggering vector at `t = 181` freezes the baseline over exactly the
180 stored vectors. -/
theorem calib_final_baseline :
    calib_final.baseline = some (build_baseline ((List.range 180).map calib_fv)) := by
  rw [calib_final, calib_state_179_eq]
  norm_num [update]

/-- Freezing over scenario vectors at indices `k :: l` gives the mean index
as typing speed and zeroes elsewhere. -/
theorem build_baseline_calib (k : ℕ) (l : List ℕ) :
    build_baseline ((k :: l).map calib_fv) =
      { avg_typing_speed := (((k :: l).sum : ℕ) : ℚ) / (((k :: l).length : ℕ) : ℚ),
        avg_idle_duration := 0, avg_focus_rate := 0 } := by
  have h1 := map_calib_speed_sum (k :: l)
  have h2 := map_calib_idle_sum (k :: l)
  have h3 := map_calib_focus_sum (k :: l)
  simp only [List.map_cons] at h1 h2 h3
  simp only [List.map_cons, build_baseline]
  rw [BaselineProfile.mk.injEq]
  refine ⟨?_, ?_, ?_⟩
  · rw [h1]
    simp
  · rw [h2]
    simp
  · rw [h3]
    simp [calib_fv]

set_option maxRecDepth 4000 in
/-- Numeric value of the scenario's frozen baseline: mean typing speed
`(0 + 1 + ⋯ + 179)/180 = 179/2`, zero idle and focus rates. -/
theorem build_baseline_calib_value :
    build_baseline ((List.range 180).map calib_fv) =
      { avg_typing_speed := 179/2, avg_idle_duration := 0, avg_focus_rate := 0 } := by
  rw [List.range_succ_eq_map 179, build_baseline_calib]
  have hs : (0 :: (List.range 179).map Nat.succ).sum = 16110 := by decide
  have hl : (0 :: (List.range 179).map Nat.succ).length = 180 := by simp
  rw [hs, hl]
  norm_num

/-- C4: while `at_time - calibration_start ≤ calibration_duration`, `update`
appends the vector; on the first later call it freezes the baseline as the
arithmetic means of the stored vectors with the focus rate normalized by the
first stored vector's window length (fallback 30 when ≤ 0), the triggering
vector excluded.  With `calibration_duration = 180`, vectors at
`t = 0, …, 179` and one at `t = 181` freeze the baseline of exactly the
`t < 180` vectors, whose value is `(179/2, 0, 0)` for the scenario's
vectors. -/
theorem update_calibration_freeze (s : BBState) (f : FeatureVector) (t cs : ℚ)
    (hb : s.baseline = none) (hcs : s.calibration_start = some cs) :
    (t - cs ≤ s.calibration_duration →
      update s f t = { s with feature_history := s.feature_history ++ [f] }) ∧
    (s.calibration_duration < t - cs → ∀ f0 rest, s.feature_history = f0 :: rest →
      (update s f t).feature_history = [] ∧
      (update s f t).baseline = some
        { avg_typing_speed :=
            (s.feature_history.map FeatureVector.avg_typing_speed).sum /
              (s.feature_history.length : ℚ)
          avg_idle_duration :=
            (s.feature_history.map FeatureVector.avg_idle_duration).sum /
              (s.feature_history.length : ℚ)
          avg_focus_rate :=
            ((s.feature_history.map (fun v => (v.focus_loss_count : ℚ))).sum /
              (s.feature_history.length : ℚ)) *
              (60 / (if f0.window_end - f0.window_start ≤ 0 then 30
                     else f0.window_end - f0.window_start)) }) ∧
    calib_final.baseline = some (build_baseline ((List.range 180).map calib_fv)) ∧
    calib_final.baseline = some
      { avg_typing_speed := 179/2, avg_idle_duration := 0, avg_focus_rate := 0 } := by
  refine ⟨?_, ?_, calib_final_baseline, ?_⟩
  · intro ht
    simp [update, hb, hcs, ht]
  · intro ht f0 rest hh
    have hupd : update s f t =
        { s with baseline := some (build_baseline s.feature_history),
                 feature_history := [] } := by
      simp [update, hb, hcs, not_le.mpr ht]
    rw [hupd, hh]
    exact ⟨rfl, rfl⟩
  · rw [calib_final_baseline, build_baseline_calib_value]

/-- Witness for C4 on a one-vector history frozen at `t = 200`. -/
theorem update_calibration_freeze_witness :
    ((200 : ℚ) - 0 ≤ (180 : ℚ) →
      update { calibration_duration := 180, feature_history := [calib_fv 3],
               baseline := none, calibration_start := some 0 } (calib_fv 4) 200 =
        { calibration_duration := 180, feature_history := [calib_fv 3, calib_fv 4],
          baseline := none, calibration_start := some 0 }) ∧
    ((180 : ℚ) < 200 - 0 → ∀ f0 rest, ([calib_fv 3] : List FeatureVector) = f0 :: rest →
      (update { calibration_duration := 180, feature_history := [calib_fv 3],
                baseline := none, calibration_start := some 0 } (calib_fv 4) 200).feature_history = [] ∧
      (update { calibration_duration := 180, feature_history := [calib_fv 3],
                baseline := none, calibration_start := some 0 } (calib_fv 4) 200).baseline = some
        { avg_typing_speed :=
            (([calib_fv 3] : List FeatureVector).map FeatureVector.avg_typing_speed).sum /
              (([calib_fv 3] : List FeatureVector).length : ℚ)
          avg_idle_duration :=
            (([calib_fv 3] : List FeatureVector).map FeatureVector.avg_idle_duration).sum /
              (([calib_fv 3] : List FeatureVector).length : ℚ)
          avg_focus_rate :=
            ((([calib_fv 3] : List FeatureVector).map (fun v => (v.focus_loss_count : ℚ))).sum /
              (([calib_fv 3] : List FeatureVector).length : ℚ)) *
              (60 / (if f0.window_end - f0.window_start ≤ 0 then 30
                     else f0.window_end - f0.window_start)) }) ∧
    calib_final.baseline = some (build_baseline ((List.range 180).map calib_fv)) ∧
    calib_final.baseline = some
      { avg_typing_speed := 179/2, avg_idle_duration := 0, avg_focus_rate := 0 } := by
  have h := update_calibration_freeze
    { calibration_duration := 180, feature_history := [calib_fv 3],
      baseline := none, calibration_start := some 0 } (calib_fv 4) 200 0 rfl rfl
  simpa using h

/-- C8: once a baseline is frozen, `update` is a no-op for any arguments. -/
theorem update_noop_after_calibrated (s : BBState) (f : FeatureVector) (t : ℚ)
    (b : BaselineProfile) (hb : s.baseline = some b) : update s f t = s := by
  simp [update, hb]

/-- Witness for C8 at a concrete calibrated state. -/
theorem update_noop_after_calibrated_witness :
    update { calibration_duration := 180, feature_history := [],
             baseline := some ⟨150, 2, 1/2⟩, calibration_start := some 0 }
        (calib_fv 7) 500 =
      { calibration_duration := 180, feature_history := [],
        baseline := some ⟨150, 2, 1/2⟩, calibration_start := some 0 } :=
  update_noop_after_calibrated _ _ _ ⟨150, 2, 1/2⟩ rfl

/-- C9: freezing with an empty history yields the fixed default profile
`(150, 2, 0.5)` instead of failing. -/
theorem update_empty_history_default_baseline (s : BBState) (f : FeatureVector)
    (t cs : ℚ) (hb : s.baseline = none) (hcs : s.calibration_start = some cs)
    (hh : s.feature_history = []) (ht : s.calibration_duration < t - cs) :
    (update s f t).baseline =
      some { avg_typing_speed := 150, avg_idle_duration := 2,
             avg_focus_rate := 1/2 } := by
  simp [update, hb, hcs, hh, build_baseline, not_le.mpr ht]

/-- Witness for C9: a builder started at time 0 with duration 180 that sees
its first vector only at time 200. -/
theorem update_empty_history_default_baseline_witness :
    (update { calibration_duration := 180, feature_history := [],
              baseline := none, calibration_start := some 0 }
        (calib_fv 3) 200).baseline =
      some { avg_typing_speed := 150, avg_idle_duration := 2,
             avg_focus_rate := 1/2 } :=
  update_empty_history_default_baseline _ _ 200 0 rfl rfl rfl (by norm_num)

/-- On a timestamp-sorted buffer the prune loop removes exactly the events
strictly below the cutoff. -/
theorem dropWhile_lt_eq_filter (c : ℚ) (l : List Event)
    (hl : l.Pairwise (fun a b => a.timestamp ≤ b.timestamp)) :
    l.dropWhile (fun e => e.timestamp < c) =
      l.filter (fun e => c ≤ e.timestamp) := by
  induction l with
  | nil => rfl
  | cons x xs ih =>
    rcases List.pairwise_cons.mp hl with ⟨hx, hxs⟩
    by_cases hxc : x.timestamp < c
    · rw [List.dropWhile_cons_of_pos (by simpa using hxc),
        List.filter_cons_of_neg (by simpa using not_le.mpr hxc)]
      exact ih hxs
    · rw [List.dropWhile_cons_of_neg (by simpa using hxc),
        List.filter_cons_of_pos (by simpa using not_lt.mp hxc)]
      congr 1
      symm
      rw [List.filter_eq_self]
      intro a ha
      simpa using le_trans (not_lt.mp hxc) (hx a ha)

/-- Key-press timestamps inherit the buffer's ordering. -/
theorem press_times_sorted (evs : List Event)
    (h : evs.Pairwise (fun a b => a.timestamp ≤ b.timestamp)) :
    (press_times evs).Pairwise (· ≤ ·) := by
  unfold press_times
  rw [List.pairwise_filterMap]
  refine List.Pairwise.imp ?_ h
  intro a b hab x hx y hy
  by_cases ha : a.isKeyPress <;> by_cases hb2 : b.isKeyPress <;>
    simp [ha, hb2] at hx hy
  subst hx
  subst hy
  exact hab

/-- Consecutive differences of a sorted list of rationals are nonnegative. -/
theorem intervals_nonneg_of_sorted (ts : List ℚ) (h : ts.Pairwise (· ≤ ·)) :
    ∀ x ∈ intervals ts, 0 ≤ x := by
  induction ts with
  | nil =>
    intro x hx
    simp [intervals] at hx
  | cons a t ih =>
    rcases List.pairwise_cons.mp h with ⟨ha, ht⟩
    cases t with
    | nil =>
      intro x hx
      simp [intervals] at hx
    | cons b t2 =>
      intro x hx
      have hcons : intervals (a :: b :: t2) = (b - a) :: intervals (b :: t2) := rfl
      rw [hcons] at hx
      rcases List.mem_cons.mp hx with hx1 | hx2
      · rw [hx1]
        exact sub_nonneg.mpr (ha b (List.mem_cons_self b t2))
      · exact ih ht x hx2

/-- The sum of a `zipWith` of a nonnegative-valued function is nonnegative. -/
theorem sum_zipWith_nonneg {α : Type} (g : α → α → ℚ) (hg : ∀ x y, 0 ≤ g x y)
    (l1 l2 : List α) : 0 ≤ (List.zipWith g l1 l2).sum := by
  induction l1 generalizing l2 with
  | nil => simp
  | cons a t ih =>
    cases l2 with
    | nil => simp
    | cons b t2 => simpa using add_nonneg (hg a b) (ih t2)

/-- The modelled `math.sqrt` distance sum is nonnegative. -/
theorem mouse_dist_nonneg (sq : ℚ → ℚ) (hsq : ∀ x, 0 ≤ sq x)
    (ps : List (ℚ × ℤ × ℤ)) : 0 ≤ mouse_dist sq ps :=
  sum_zipWith_nonneg _ (fun _ _ => hsq _) ps ps.tail

/-- Field bounds of the vector computed over a sorted window whose idle
events carry nonnegative durations: the five feature fields are nonnegative
and the three ratio fields are zero below two qualifying samples. -/
theorem compute_fv_fields (sq : ℚ → ℚ) (hsq : ∀ x, 0 ≤ sq x) (wd ct : ℚ)
    (evs : List Event)
    (hsort : evs.Pairwise (fun a b => a.timestamp ≤ b.timestamp))
    (hidle : ∀ e ∈ evs, ∀ d, e.idleDur = some d → 0 ≤ d) :
    (0 ≤ (compute_fv sq wd ct evs).avg_typing_speed ∧
     0 ≤ (compute_fv sq wd ct evs).inter_key_interval ∧
     0 ≤ (compute_fv sq wd ct evs).avg_idle_duration ∧
     0 ≤ (compute_fv sq wd ct evs).avg_mouse_speed) ∧
    ((press_times evs).length < 2 →
      (compute_fv sq wd ct evs).avg_typing_speed = 0 ∧
      (compute_fv sq wd ct evs).inter_key_interval = 0) ∧
    ((mouse_samples evs).length < 2 →
      (compute_fv sq wd ct evs).avg_mouse_speed = 0) := by
  refine ⟨⟨?_, ?_, ?_, ?_⟩, ?_, ?_⟩
  · show 0 ≤ typing_speed_of ct (ct - wd) evs
    unfold typing_speed_of
    split_ifs with h1 h2
    · exact mul_nonneg (div_nonneg (Nat.cast_nonneg _) (le_of_lt h2)) (by norm_num)
    · exact le_refl (0 : ℚ)
    · exact le_refl (0 : ℚ)
  · show 0 ≤ inter_key_of evs
    unfold inter_key_of
    split_ifs with h1
    · exact div_nonneg
        (List.sum_nonneg (intervals_nonneg_of_sorted _ (press_times_sorted evs hsort)))
        (Nat.cast_nonneg _)
    · exact le_refl (0 : ℚ)
  · show 0 ≤ idle_feat evs
    unfold idle_feat
    split_ifs with h1
    · exact le_refl (0 : ℚ)
    · refine div_nonneg (List.sum_nonneg ?_) (Nat.cast_nonneg _)
      intro d hd
      rcases List.mem_filterMap.mp hd with ⟨e, he, hde⟩
      exact hidle e he d hde
  · show 0 ≤ mouse_feat sq evs
    unfold mouse_feat
    split_ifs with h1 h2
    · exact div_nonneg (mouse_dist_nonneg sq hsq _) (le_of_lt h2)
    · exact le_refl (0 : ℚ)
    · exact le_refl (0 : ℚ)
  · intro hlt
    constructor
    · show typing_speed_of ct (ct - wd) evs = 0
      unfold typing_speed_of
      rw [if_neg (by omega)]
    · show inter_key_of evs = 0
      unfold inter_key_of
      rw [if_neg (by omega)]
  · intro hlt
    show mouse_feat sq evs = 0
    unfold mouse_feat
    rw [if_neg (by omega)]

/-- C6 counterexample: with a single focus-lost event at `t = 5` in a
30-second window queried at `t = 10`, `compute_features` returns
`focus_loss_count = 1` (not 0, despite fewer than 2 samples of that kind)
and a negative `window_start` field. -/
theorem compute_features_single_sample_counterexample :
    (compute_features (fun _ => 0)
        { window_duration := 30, event_buffer := [Event.focus 5 .focus_lost true] }
        (some 10)).2.focus_loss_count = 1 ∧
    ¬ (compute_features (fun _ => 0)
        { window_duration := 30, event_buffer := [Event.focus 5 .focus_lost true] }
        (some 10)).2.focus_loss_count = 0 ∧
    (compute_features (fun _ => 0)
        { window_duration := 30, event_buffer := [Event.focus 5 .focus_lost true] }
        (some 10)).2.window_start < 0 := by
  norm_num [compute_features, compute_fv, prune_buffer, Event.timestamp,
    Event.isFocusLost]

/-- C6 (amended): over any buffer reachable through `add_event` (hence
timestamp-sorted) whose idle events carry nonnegative durations, the feature
fields `avg_typing_speed`, `inter_key_interval`, `avg_idle_duration` and
`avg_mouse_speed` of the returned vector are nonnegative
(`focus_loss_count` is a count, nonnegative by type), and the speed fields
`avg_typing_speed`, `inter_key_interval` and `avg_mouse_speed` default to 0
when fewer than 2 qualifying samples remain in the window. -/
theorem compute_features_fields_amended (sq : ℚ → ℚ) (hsq : ∀ x, 0 ≤ sq x)
    (s : FEState) (ct? : Option ℚ)
    (hsort : s.event_buffer.Pairwise (fun a b => a.timestamp ≤ b.timestamp))
    (hidle : ∀ e ∈ s.event_buffer, ∀ d, e.idleDur = some d → 0 ≤ d) :
    (0 ≤ (compute_features sq s ct?).2.avg_typing_speed ∧
     0 ≤ (compute_features sq s ct?).2.inter_key_interval ∧
     0 ≤ (compute_features sq s ct?).2.avg_idle_duration ∧
     0 ≤ (compute_features sq s ct?).2.avg_mouse_speed) ∧
    ((press_times (compute_features sq s ct?).1.event_buffer).length < 2 →
      (compute_features sq s ct?).2.avg_typing_speed = 0 ∧
      (compute_features sq s ct?).2.inter_key_interval = 0) ∧
    ((mouse_samples (compute_features sq s ct?).1.event_buffer).length < 2 →
      (compute_features sq s ct?).2.avg_mouse_speed = 0) := by
  have hsub : ∀ p : Event → Bool,
      List.Sublist (s.event_buffer.dropWhile p) s.event_buffer :=
    fun p => List.dropWhile_sublist _
  exact compute_fv_fields sq hsq s.window_duration _ _
    (hsort.sublist (hsub _))
    (fun e he d hd => hidle e ((hsub _).subset he) d hd)

/-- Witness for C6 on a one-idle-event buffer. -/
theorem compute_features_fields_amended_witness :
    (0 ≤ (compute_features (fun _ => 0)
        { window_duration := 30, event_buffer := [Event.idle 5 .idle_period 2] }
        (some 10)).2.avg_typing_speed ∧
     0 ≤ (compute_features (fun _ => 0)
        { window_duration := 30, event_buffer := [Event.idle 5 .idle_period 2] }
        (some 10)).2.inter_key_interval ∧
     0 ≤ (compute_features (fun _ => 0)
        { window_duration := 30, event_buffer := [Event.idle 5 .idle_period 2] }
        (some 10)).2.avg_idle_duration ∧
     0 ≤ (compute_features (fun _ => 0)
        { window_duration := 30, event_buffer := [Event.idle 5 .idle_period 2] }
        (some 10)).2.avg_mouse_speed) ∧
    ((press_times (compute_features (fun _ => 0)
        { window_duration := 30, event_buffer := [Event.idle 5 .idle_period 2] }
        (some 10)).1.event_buffer).length < 2 →
      (compute_features (fun _ => 0)
        { window_duration := 30, event_buffer := [Event.idle 5 .idle_period 2] }
        (some 10)).2.avg_typing_speed = 0 ∧
      (compute_features (fun _ => 0)
        { window_duration := 30, event_buffer := [Event.idle 5 .idle_period 2] }
        (some 10)).2.inter_key_interval = 0) ∧
    ((mouse_samples (compute_features (fun _ => 0)
        { window_duration := 30, event_buffer := [Event.idle 5 .idle_period 2] }
        (some 10)).1.event_buffer).length < 2 →
      (compute_features (fun _ => 0)
        { window_duration := 30, event_buffer := [Event.idle 5 .idle_period 2] }
        (some 10)).2.avg_mouse_speed = 0) :=
  compute_features_fields_amended (fun _ => 0) (fun _ => le_refl 0)
    { window_duration := 30, event_buffer := [Event.idle 5 .idle_period 2] }
    (some 10) (by simp)
    (by
      intro e he d hd
      rw [List.mem_singleton] at he
      subst he
      simp only [Event.idleDur, Option.some.injEq] at hd
      rw [← hd]
      norm_num)

/-- C10: `compute_features` enforces only the window's lower bound.  On a
sorted buffer it removes exactly the events with timestamp below
`current_time - window_duration`; every event with timestamp ≥ the cutoff —
in particular at or beyond `current_time` — stays in the buffer the features
are computed over, while the vector still reports the window as
`[current_time - window_duration, current_time)`.  Concretely, a focus-lost
event at `t = 100` contributes `focus_loss_count = 1` to a window queried at
`current_time = 10`. -/
theorem compute_features_lower_bound_only (sq : ℚ → ℚ) (s : FEState) (ct : ℚ)
    (hsort : s.event_buffer.Pairwise (fun a b => a.timestamp ≤ b.timestamp))
    (hwd : 0 ≤ s.window_duration) :
    (compute_features sq s (some ct)).1.event_buffer =
      s.event_buffer.filter (fun e => ct - s.window_duration ≤ e.timestamp) ∧
    (∀ e ∈ s.event_buffer, ct ≤ e.timestamp →
      e ∈ (compute_features sq s (some ct)).1.event_buffer) ∧
    (compute_features sq s (some ct)).2.window_start = ct - s.window_duration ∧
    (compute_features sq s (some ct)).2.window_end = ct ∧
    (compute_features (fun _ => 0)
        { window_duration := 30, event_buffer := [Event.focus 100 .focus_lost true] }
        (some 10)).2.focus_loss_count = 1 := by
  have hbuf : (compute_features sq s (some ct)).1.event_buffer =
      s.event_buffer.filter (fun e => ct - s.window_duration ≤ e.timestamp) := by
    show (prune_buffer s ct).event_buffer = _
    unfold prune_buffer
    exact dropWhile_lt_eq_filter _ _ hsort
  refine ⟨hbuf, ?_, rfl, rfl, ?_⟩
  · intro e he hct
    rw [hbuf, List.mem_filter]
    refine ⟨he, ?_⟩
    simp only [decide_eq_true_eq]
    linarith
  · norm_num [compute_features, compute_fv, prune_buffer, Event.timestamp,
      Event.isFocusLost]

/-- Witness for C10 on a buffer holding one future event. -/
theorem compute_features_lower_bound_only_witness :
    ((compute_features (fun _ => 0)
        { window_duration := 30, event_buffer := [Event.focus 100 .focus_lost true] }
        (some 10)).1.event_buffer =
      ([Event.focus 100 .focus_lost true] : List Event).filter
        (fun e => (10 : ℚ) - 30 ≤ e.timestamp) ∧
    (∀ e ∈ ([Event.focus 100 .focus_lost true] : List Event), (10 : ℚ) ≤ e.timestamp →
      e ∈ (compute_features (fun _ => 0)
        { window_duration := 30, event_buffer := [Event.focus 100 .focus_lost true] }
        (some 10)).1.event_buffer) ∧
    (compute_features (fun _ => 0)
        { window_duration := 30, event_buffer := [Event.focus 100 .focus_lost true] }
        (some 10)).2.window_start = (10 : ℚ) - 30 ∧
    (compute_features (fun _ => 0)
        { window_duration := 30, event_buffer := [Event.focus 100 .focus_lost true] }
        (some 10)).2.window_end = 10 ∧
    (compute_features (fun _ => 0)
        { window_duration := 30, event_buffer := [Event.focus 100 .focus_lost true] }
        (some 10)).2.focus_loss_count = 1) :=
  compute_features_lower_bound_only (fun _ => 0)
    { window_duration := 30, event_buffer := [Event.focus 100 .focus_lost true] }
    10 (by simp) (by norm_num)

end SentinalX
